import Mathlib

/-!
Verification of the Selection-Addressable Feature Export Engine
(CELESTAKIM/postgres_project) against its natural-language specification.

The development shallowly embeds the two Flask backends:
* `NewT`   — src/NEW/template/app.py
* `Portal3` — src/PORTAL3/BEST/app.py

Database cell values are modelled by `Value`; a query-epoch scan of one
table is a `DataFrame` (ordered rows); the store is a function from table
name to `Option DataFrame` (`none` = unreachable / missing).  Filesystem
side effects of the export and ingestion handlers are recorded as an
explicit event trace (`FsEvent`) so that temporary-file cleanup is
observable.  Each handler additionally records which table names were
interpolated into SQL text (`queried`), making the allow-list gate
observable.
-/

set_option autoImplicit false

/-- A database / Python cell value.  `vBytes` and `vGeom` stand for the
values `json.dumps` cannot serialize (binary, geometry objects); the
others are JSON-safe scalars. -/
inductive Value where
  | vInt : Int → Value
  | vStr : String → Value
  | vNull : Value
  | vBytes : List Nat → Value
  | vGeom : String → Int → Value
  deriving DecidableEq, Repr

/-- `json.dumps(v)` succeeds exactly on these values. -/
def Value.jsonSafe : Value → Bool
  | .vBytes _ => false
  | .vGeom _ _ => false
  | _ => true

/-- Python `str(v)` (abstract string representation). -/
def Value.pyStr : Value → String
  | .vInt n => toString n
  | .vStr s => s
  | .vNull => "None"
  | .vBytes bs => "bytes " ++ toString bs.length
  | .vGeom t p => "geom " ++ t ++ " " ++ toString p

/-- One coherent scan epoch of a table: ordered rows under named columns. -/
structure DataFrame where
  cols : List String
  rows : List (List Value)
  deriving DecidableEq, Repr

/-- Every row is aligned with the column list. -/
def DataFrame.wf (df : DataFrame) : Prop :=
  ∀ r ∈ df.rows, r.length = df.cols.length

/-- Number a list consecutively starting from `k` (models SQL
`row_number()` when `k = 1` and Python `enumerate` when `k = 0`). -/
def numberFrom {α : Type} (k : Nat) : List α → List (Nat × α)
  | [] => []
  | a :: as => (k, a) :: numberFrom (k + 1) as

/-- First association-list entry with the given key (Python dict /
jsonb object lookup order). -/
def findPair (k : String) : List (String × Value) → Option (String × Value)
  | [] => none
  | p :: ps => if p.1 = k then some p else findPair k ps

/-- Value of column `c` in a positional row, `vNull` when absent. -/
def colValue (cols : List String) (row : List Value) (c : String) : Value :=
  match findPair c (cols.zip row) with
  | some p => p.2
  | none => Value.vNull

/-- Filesystem side effects of a handler, in program order. -/
inductive FsEvent where
  | mkdir : String → FsEvent
  | write : String → String → FsEvent
  | rmtree : String → FsEvent
  deriving DecidableEq, Repr

/-- Effect of one filesystem event on the disk contents, where a disk
entry is a directory paired with an optional file name inside it
(`(d, none)` is the directory itself). -/
def fsStep (fs : List (String × Option String)) (ev : FsEvent) :
    List (String × Option String) :=
  match ev with
  | .mkdir d => fs ++ [(d, none)]
  | .write d f => fs ++ [(d, some f)]
  | .rmtree d => fs.filter (fun p => p.1 ≠ d)

/-- Replay a trace; result is the list of directories and files that
remain on disk afterwards. -/
def replayFs (evs : List FsEvent) : List (String × Option String) :=
  evs.foldl fsStep []

/-- An HTTP handler outcome: success payload or `(status, message)`. -/
inductive Resp (α : Type) where
  | ok : α → Resp α
  | err : Nat → String → Resp α
  deriving DecidableEq, Repr

/-- One GeoJSON feature: re-encoded geometry plus a properties object. -/
structure Feature where
  geometry : Value
  props : List (String × Value)
  deriving DecidableEq, Repr

/-- Attribute-mode payload: column list plus row objects. -/
structure AttrOut where
  cols : List String
  rows : List (List (String × Value))
  deriving DecidableEq, Repr

instance instDecEqExcept {ε α : Type} [DecidableEq ε] [DecidableEq α] :
    DecidableEq (Except ε α) := fun x y =>
  match x, y with
  | .ok a, .ok b => decidable_of_iff (a = b) (by simp)
  | .error a, .error b => decidable_of_iff (a = b) (by simp)
  | .ok _, .error _ => .isFalse (by simp)
  | .error _, .ok _ => .isFalse (by simp)

/-- Result of a store-touching helper: value or raised error, together
with the table names that were interpolated into SQL text. -/
structure DbOut (α : Type) where
  result : Except String α
  queried : List String
  deriving DecidableEq, Repr

namespace NewT

/-! ## src/NEW/template/app.py -/

/-- One entry of the hard-coded `LAYERS` mapping. -/
structure LayerMeta where
  table : String
  title : String
  ltype : String
  color : String
  deriving DecidableEq, Repr

/-- The `LAYERS` dict of NEW/template/app.py. -/
def LAYERS : List (String × LayerMeta) :=
  [("adm0", ⟨"ken_admbnda_adm0_iebc_20191031", "Kenya (ADM0)", "polygon", "#000000"⟩),
   ("adm1", ⟨"ken_admbnda_adm1_iebc_20191031", "Counties (ADM1)", "polygon", "#0277bd"⟩),
   ("adm2", ⟨"ken_admbnda_adm2_iebc_20191031", "Subcounties (ADM2)", "polygon", "#2e7d32"⟩),
   ("electoral_poly", ⟨"ken_admbndl_admall_iebc_20191031", "Electoral Boundaries (Polygons)", "polygon", "#6a1b9a"⟩),
   ("points", ⟨"ken_admbndp_admall_iebc_itos_20191031", "Polling Points", "point", "#ff5722"⟩)]

/-- `allowed_tables = {v["table"] for v in LAYERS.values()}`. -/
def allowedTables : List String :=
  LAYERS.map (fun kv => kv.2.table)

/-- `LAYERS[layer_key]` when present. -/
def lookupLayer (k : String) : Option LayerMeta :=
  (LAYERS.find? (fun kv => kv.1 = k)).map (fun kv => kv.2)

/-- One feature of `fetch_geojson_from_table`: the inner select adds
`_rowid`, `to_jsonb(t) - geom_col` drops the geometry key, and the
geometry is re-encoded from the geometry column. -/
def mkFeature (cols : List String) (geomCol : String) (rid : Nat) (row : List Value) : Feature :=
  { geometry := colValue cols row geomCol,
    props := ((cols.zip row) ++ [("_rowid", Value.vInt rid)]).filter
      (fun p => p.1 ≠ geomCol) }

/-- `fetch_geojson_from_table(table_name, geom_col)`: allow-list check,
then one feature per row with `_rowid = row_number() OVER ()`. -/
def fetch_geojson_from_table (db : String → Option DataFrame)
    (tableName geomCol : String) : DbOut (List Feature) :=
  if tableName ∈ allowedTables then
    match db tableName with
    | some df =>
        ⟨.ok ((numberFrom 1 df.rows).map (fun p => mkFeature df.cols geomCol p.1 p.2)),
         [tableName]⟩
    | none => ⟨.error "connection failed", [tableName]⟩
  else ⟨.error "Table not recognized", []⟩

/-- `try: json.dumps(v); obj[k] = v except: obj[k] = str(v)`. -/
def coerceValue (v : Value) : Value :=
  if v.jsonSafe then v else Value.vStr v.pyStr

/-- One output row of `fetch_attributes`: iterate `zip(colnames, r)`
(colnames ends with `_rowid` from the query), skip the hard-coded
`geom` key, coerce non-JSON-safe values to their string form. -/
def attrObj (cols : List String) (rid : Nat) (row : List Value) : List (String × Value) :=
  (((cols ++ ["_rowid"]).zip (row ++ [Value.vInt rid])).filter
      (fun kv => kv.1 ≠ "geom")).map
    (fun kv => (kv.1, coerceValue kv.2))

/-- `fetch_attributes(table_name, limit)`.  `lim` is empty when `limit`
is falsy (`None` or `0`), so `some 0` means no limit, as in the source. -/
def fetch_attributes (db : String → Option DataFrame)
    (tableName : String) (limit : Option Nat) : DbOut AttrOut :=
  if tableName ∈ allowedTables then
    match db tableName with
    | some df =>
        let rows :=
          match limit with
          | some n => if n = 0 then df.rows else df.rows.take n
          | none => df.rows
        ⟨.ok ⟨(df.cols ++ ["_rowid"]).filter (fun c => c ≠ "geom"),
              (numberFrom 1 rows).map (fun p => attrObj df.cols p.1 p.2)⟩,
         [tableName]⟩
    | none => ⟨.error "connection failed", [tableName]⟩
  else ⟨.error "Table not recognized", []⟩

/-- Route `/data/<layer_key>`. -/
def data_layer (db : String → Option DataFrame) (layerKey : String) :
    Resp (List Feature) × List String :=
  match lookupLayer layerKey with
  | none => (.err 404 "Unknown layer key", [])
  | some meta =>
      let out := fetch_geojson_from_table db meta.table "geom"
      match out.result with
      | .ok fc => (.ok fc, out.queried)
      | .error e => (.err 500 e, out.queried)

/-- Route `/attributes/<layer_key>`. -/
def attributes_route (db : String → Option DataFrame) (layerKey : String) :
    Resp AttrOut × List String :=
  match lookupLayer layerKey with
  | none => (.err 404 "Unknown layer key", [])
  | some meta =>
      let out := fetch_attributes db meta.table none
      match out.result with
      | .ok a => (.ok a, out.queried)
      | .error e => (.err 500 e, out.queried)

/-- `int(x)` candidates of the `/download` validation: Python ints pass
through, strings pass `x.isdigit()` (non-empty, all digits). -/
def toCandidate : Value → Option Int
  | .vInt n => some n
  | .vStr s => (s.toNat?).map Int.ofNat
  | _ => none

/-- The two list comprehensions of `download_selection`: parse, then keep
`1 <= x <= len(gdf)`. -/
def sel_valid (selected : List Value) (n : Nat) : List Int :=
  (selected.filterMap toCandidate).filter (fun x => 1 ≤ x ∧ x ≤ (n : Int))

/-- `gdf[gdf["_rowid"].isin(sel_valid)]` with `_rowid = index + 1`. -/
def subsetRows (rows : List (List Value)) (sel : List Int) : List (List Value) :=
  ((numberFrom 1 rows).filter (fun p => ((p.1 : Int)) ∈ sel)).map (fun p => p.2)

/-- Outcome of the `/download` route. -/
structure DlOut where
  resp : Resp String
  queried : List String
  events : List FsEvent
  subset : List (List Value)
  deriving DecidableEq, Repr

/-- Route `/download` (`download_selection`).  `writeOk` models whether
`to_file` succeeds; the `finally` block always removes the temporary
directory. -/
def download_selection (db : String → Option DataFrame) (writeOk : Bool)
    (payload : Option (Option String × List Value)) : DlOut :=
  match payload with
  | none => ⟨.err 400 "No JSON payload provided", [], [], []⟩
  | some (layerKey, selected) =>
      let meta :=
        match layerKey with
        | some k => lookupLayer k
        | none => none
      match meta with
      | none => ⟨.err 400 "Invalid layer key", [], [], []⟩
      | some m =>
          if selected.isEmpty then
            ⟨.err 400 "No selected features provided", [], [], []⟩
          else
            match db m.table with
            | none => ⟨.err 500 "read_postgis raised", [m.table], [], []⟩
            | some df =>
                if df.rows.isEmpty then
                  ⟨.err 400 "Layer has no features", [m.table], [], []⟩
                else
                  let sel := sel_valid selected df.rows.length
                  if sel.isEmpty then
                    ⟨.err 400 "No valid selection indices", [m.table], [], []⟩
                  else
                    let subset := subsetRows df.rows sel
                    let base := m.table ++ "_selection"
                    if writeOk then
                      ⟨.ok (base ++ ".zip"), [m.table],
                       [.mkdir "export_tmp", .write "export_tmp" (base ++ ".shp"),
                        .write "export_tmp" (base ++ ".shx"),
                        .write "export_tmp" (base ++ ".dbf"),
                        .write "export_tmp" (base ++ ".prj"),
                        .write "export_tmp" (base ++ ".zip"),
                        .rmtree "export_tmp"],
                       subset⟩
                    else
                      ⟨.err 500 "Export failed", [m.table],
                       [.mkdir "export_tmp", .rmtree "export_tmp"], subset⟩

end NewT

namespace Portal3

/-! ## src/PORTAL3/BEST/app.py -/

/-- One row of the PostGIS `geometry_columns` registry. -/
structure TableMeta where
  schema : String
  geomCol : String
  geomType : String
  deriving DecidableEq, Repr

/-- `get_spatial_tables()`: enumerate the registry, excluding system
schemas.  (Title and color are derived display metadata, unused by the
properties below.) -/
def get_spatial_tables (registry : List (String × TableMeta)) :
    List (String × TableMeta) :=
  registry.filter
    (fun p => p.2.schema ≠ "pg_catalog" ∧ p.2.schema ≠ "information_schema")

/-- `tables[table]` when `table in tables`. -/
def lookupTable (registry : List (String × TableMeta)) (t : String) :
    Option TableMeta :=
  ((get_spatial_tables registry).find? (fun p => p.1 = t)).map (fun p => p.2)

/-- Route `/data/<table>` (`get_layer_geojson`): allow-list check, then a
FeatureCollection over the first 1000 rows; properties are
`to_jsonb(t) - geom_col` — no `_rowid` is added. -/
def get_layer_geojson (registry : List (String × TableMeta))
    (dfs : String → Option DataFrame) (table : String) :
    Resp (List Feature) × List String :=
  match lookupTable registry table with
  | none => (.err 404 "Layer not found", [])
  | some meta =>
      match dfs table with
      | none => (.err 500 "connection failed", [table])
      | some df =>
          (.ok ((df.rows.take 1000).map (fun r =>
              { geometry := colValue df.cols r meta.geomCol,
                props := (df.cols.zip r).filter (fun p => p.1 ≠ meta.geomCol) })),
           [table])

/-- `df.fillna('')`: pandas replaces missing values by the empty string;
nothing else is touched. -/
def fillna (v : Value) : Value :=
  match v with
  | .vNull => .vStr ""
  | v => v

/-- Python dict assignment `row[k] = v`: overwrite an existing key,
otherwise append. -/
def setKey (obj : List (String × Value)) (k : String) (v : Value) :
    List (String × Value) :=
  if obj.any (fun p => p.1 = k) then
    obj.map (fun p => if p.1 = k then (k, v) else p)
  else obj ++ [(k, v)]

/-- Route `/attributes/<table>` (`get_attributes`): first 1000 rows, drop
the geometry column, `fillna('')`, then `row['_rowid'] = i` with the
0-based DataFrame index.  `jsonify` raises — caught as a 500 error —
when any remaining cell is not JSON-serializable. -/
def get_attributes (registry : List (String × TableMeta))
    (dfs : String → Option DataFrame) (table : String) :
    Resp AttrOut × List String :=
  match lookupTable registry table with
  | none => (.err 404 "Layer not found", [])
  | some meta =>
      match dfs table with
      | none => (.err 500 "read_sql raised", [table])
      | some df =>
          let keep := (numberFrom 0 df.cols).filter (fun p => p.2 ≠ meta.geomCol)
          let cols := keep.map (fun p => p.2)
          let rows0 := (df.rows.take 1000).map
            (fun r => keep.filterMap
              (fun p => (r.get? p.1).map (fun v => (p.2, fillna v))))
          let rows := (numberFrom 0 rows0).map
            (fun p => setKey p.2 "_rowid" (Value.vInt p.1))
          if rows.all (fun obj => obj.all (fun kv => kv.2.jsonSafe)) then
            (.ok ⟨cols, rows⟩, [table])
          else
            (.err 500 "Object is not JSON serializable", [table])

/-- Positional resolution of one index by pandas `iloc`: `0 <= i < n`
selects row `i`, `-n <= i < 0` selects row `n + i`, anything else is an
`IndexError`. -/
def ilocIdx (n : Nat) (i : Int) : Option Nat :=
  if 0 ≤ i ∧ i < (n : Int) then some i.toNat
  else if 0 ≤ i + (n : Int) ∧ i < 0 then some (i + (n : Int)).toNat
  else none

/-- One `iloc` lookup, raising on out-of-bounds indices. -/
def ilocOne (rows : List (List Value)) (i : Int) : Except String (List Value) :=
  match ilocIdx rows.length i with
  | some j =>
      match rows.get? j with
      | some r => .ok r
      | none => .error "positional indexers are out-of-bounds"
  | none => .error "positional indexers are out-of-bounds"

/-- `df.iloc[selected]`: one output row per requested index, in request
order, duplicates included; the first out-of-bounds index raises. -/
def ilocRows (rows : List (List Value)) : List Int →
    Except String (List (List Value))
  | [] => .ok []
  | i :: is =>
      match ilocOne rows i with
      | .error e => .error e
      | .ok r =>
          match ilocRows rows is with
          | .error e => .error e
          | .ok rs => .ok (r :: rs)

/-- Outcome of the Portal3 `/download` route. -/
structure DlOut3 where
  resp : Resp String
  queried : List String
  events : List FsEvent
  rows : List (List Value)
  deriving DecidableEq, Repr

/-- Route `/download` (`download_selected`): catalog check, whole-table
read, `df.iloc[selected]`, GeoJSON + zip into a fresh temporary
directory.  No cleanup is performed on any path. -/
def download_selected (registry : List (String × TableMeta))
    (dfs : String → Option DataFrame) (writeOk : Bool)
    (payload : Option String × List Int) : DlOut3 :=
  let table :=
    match payload.1 with
    | some t => t
    | none => ""
  match lookupTable registry table with
  | none => ⟨.err 404 "Layer not found", [], [], []⟩
  | some _meta =>
      if payload.2.isEmpty then ⟨.err 400 "No features selected", [], [], []⟩
      else
        match dfs table with
        | none =>
            ⟨.err 500 "Failed to fetch selected features: connection failed",
             [table], [], []⟩
        | some df =>
            match ilocRows df.rows payload.2 with
            | .error e =>
                ⟨.err 500 ("Failed to fetch selected features: " ++ e),
                 [table], [], []⟩
            | .ok rs =>
                if writeOk then
                  ⟨.ok (table ++ "_selection.zip"), [table],
                   [.mkdir "dl_tmp",
                    .write "dl_tmp" (table ++ "_selection.geojson"),
                    .write "dl_tmp" (table ++ "_selection.zip")],
                   rs⟩
                else
                  ⟨.err 500 "Failed to create zip: write raised", [table],
                   [.mkdir "dl_tmp"], rs⟩

/-- Union of column lists in order of first appearance (pandas
`concat` with default `sort=False`). -/
def unionCols (frames : List DataFrame) : List String :=
  frames.foldl (fun acc df => acc ++ df.cols.filter (fun c => c ∉ acc)) []

/-- Reindex one positional row onto the union schema: a column absent
from the row's own frame becomes missing (`NaN`, modelled `vNull`). -/
def reindexRow (cols : List String) (dfCols : List String) (row : List Value) :
    List Value :=
  cols.map (fun c =>
    match findPair c (dfCols.zip row) with
    | some p => p.2
    | none => Value.vNull)

/-- `pd.concat(merged_gdfs, ignore_index=True)`. -/
def concatFrames (frames : List DataFrame) : DataFrame :=
  let cols := unionCols frames
  ⟨cols, frames.foldl (fun acc df => acc ++ df.rows.map (reindexRow cols df.cols)) []⟩

/-- The `for layer_info in layers` loop of `merge_layers`: skip entries
with a falsy name, an empty selection, or a name outside the catalog;
otherwise read the table and take `gdf.iloc[selected]`.  Returns the
collected frames and the tables interpolated into SQL. -/
def collectFrames (registry : List (String × TableMeta))
    (dfs : String → Option DataFrame) :
    List (Option String × List Int) → Except String (List DataFrame × List String)
  | [] => .ok ([], [])
  | (t?, sel) :: rest =>
      match t? with
      | none => collectFrames registry dfs rest
      | some t =>
          if t = "" ∨ sel.isEmpty then collectFrames registry dfs rest
          else
            match lookupTable registry t with
            | none => collectFrames registry dfs rest
            | some _meta =>
                match dfs t with
                | none => .error "connection failed"
                | some df =>
                    match ilocRows df.rows sel with
                    | .error e => .error e
                    | .ok rs =>
                        match collectFrames registry dfs rest with
                        | .error e => .error e
                        | .ok (frames, qs) => .ok (⟨df.cols, rs⟩ :: frames, t :: qs)

/-- Outcome of the `/merge_layers` route. -/
structure MergeOut where
  resp : Resp String
  queried : List String
  events : List FsEvent
  merged : DataFrame
  deriving DecidableEq, Repr

/-- Route `/merge_layers`: collect per-layer subsets, `pd.concat` them,
always encode as GeoJSON and zip.  No temporary cleanup on any path. -/
def merge_layers (registry : List (String × TableMeta))
    (dfs : String → Option DataFrame) (writeOk : Bool)
    (layers : List (Option String × List Int)) : MergeOut :=
  if layers.isEmpty then ⟨.err 400 "No layers selected", [], [], ⟨[], []⟩⟩
  else
    match collectFrames registry dfs layers with
    | .error e =>
        ⟨.err 500 ("Failed to merge layers: " ++ e), [], [], ⟨[], []⟩⟩
    | .ok (frames, qs) =>
        if frames.isEmpty then
          ⟨.err 400 "No valid selected features", qs, [], ⟨[], []⟩⟩
        else
          let merged := concatFrames frames
          if writeOk then
            ⟨.ok "merged_selection.zip", qs,
             [.mkdir "merge_tmp",
              .write "merge_tmp" "merged_selection.geojson",
              .write "merge_tmp" "merged_selection.zip"],
             merged⟩
          else
            ⟨.err 500 "Failed to merge layers: write raised", qs,
             [.mkdir "merge_tmp"], merged⟩

/-- Python `str.strip().lower()`: drop surrounding whitespace, then
lower-case (char-list model of the two string methods). -/
def pyNormalize (s : String) : String :=
  String.mk (((s.toList.dropWhile Char.isWhitespace).reverse.dropWhile
    Char.isWhitespace).reverse.map Char.toLower)

/-- Python `str.endswith(suffix)` (char-list model). -/
def strEndsWith (s suffix : String) : Bool :=
  suffix.toList.isSuffixOf s.toList

/-- Python `str.isidentifier()` (ASCII fragment): non-empty, first
character a letter or underscore, the rest alphanumeric or underscore. -/
def isPyIdentifier (s : String) : Bool :=
  match s.toList with
  | [] => false
  | c :: cs => (c.isAlpha || c == '_') && cs.all (fun d => d.isAlphanum || d == '_')

/-- An `/upload` request: the multipart file, the desired table name and
the environment-determined outcomes of unzipping and shapefile parsing. -/
structure UploadReq where
  hasFile : Bool
  filename : String
  tablename : String
  zipEntries : Except String (List String)
  parseShp : Except String DataFrame
  deriving Repr

/-- Route `/upload` (`upload_shapefile`) acting on the store (the catalog
of spatial tables with their data).  `writeOk` models whether
`to_postgis` succeeds; every rejection path removes the temporary
directory, and the write is the single `to_postgis` call. -/
def upload_shapefile (tables : List (String × DataFrame)) (writeOk : Bool)
    (req : UploadReq) :
    List (String × DataFrame) × Resp String × List FsEvent :=
  if ¬ req.hasFile then (tables, .err 400 "No file part", [])
  else if req.filename = "" then (tables, .err 400 "No selected file", [])
  else
    let nt := pyNormalize req.tablename
    if ¬ isPyIdentifier nt then
      (tables, .err 400 "Invalid table name. Use only letters, digits, and underscores.", [])
    else if nt ∈ tables.map (fun p => p.1) then
      (tables, .err 400 "Table already exists. Choose another name.", [])
    else
      let saved : List FsEvent := [.mkdir "up_tmp", .write "up_tmp" req.filename]
      match req.zipEntries with
      | .error e =>
          (tables, .err 400 ("Invalid zip file: " ++ e),
           saved ++ [.rmtree "up_tmp"])
      | .ok entries =>
          let extracted := saved ++ entries.map (fun f => FsEvent.write "up_tmp" f)
          let shpFiles := entries.filter (fun f => strEndsWith f ".shp")
          if shpFiles.isEmpty then
            (tables, .err 400 "No .shp file found in archive.",
             extracted ++ [.rmtree "up_tmp"])
          else
            match req.parseShp with
            | .error e =>
                (tables, .err 400 ("Error reading shapefile: " ++ e),
                 extracted ++ [.rmtree "up_tmp"])
            | .ok gdf =>
                if gdf.rows.isEmpty then
                  (tables, .err 400 "Shapefile contains no features.",
                   extracted ++ [.rmtree "up_tmp"])
                else if ¬ writeOk then
                  (tables, .err 500 "Failed to save to PostGIS: write raised",
                   extracted ++ [.rmtree "up_tmp"])
                else
                  (tables ++ [(nt, gdf)],
                   .ok ("Layer " ++ nt ++ " uploaded successfully!"),
                   extracted ++ [.rmtree "up_tmp"])

end Portal3

/-! ## Observation helpers and concrete fixtures -/

/-- The `_rowid` entry of a properties / row object, if any. -/
def objRowid (obj : List (String × Value)) : Option Value :=
  (findPair "_rowid" obj).map (fun p => p.2)

/-- `[k, k+1, ..., k+n-1]` — the expected identifier range. -/
def natsFrom : Nat → Nat → List Nat
  | _, 0 => []
  | k, n + 1 => k :: natsFrom (k + 1) n

/-- Directory a filesystem event touches. -/
def FsEvent.dir : FsEvent → String
  | .mkdir d => d
  | .write d _ => d
  | .rmtree d => d

/-- Two-county epoch of the ADM1 table (NEW backend fixture). -/
def dfN : DataFrame :=
  ⟨["county", "geom"],
   [[.vStr "Nairobi", .vGeom "Polygon" 10], [.vStr "Kisumu", .vGeom "Polygon" 11]]⟩

/-- NEW-backend store holding only the ADM1 table. -/
def dbN : String → Option DataFrame :=
  fun t => if t = "ken_admbnda_adm1_iebc_20191031" then some dfN else none

/-- ADM2 epoch holding a non-JSON-serializable cell. -/
def dfNB : DataFrame :=
  ⟨["blob", "geom"], [[.vBytes [7], .vGeom "Point" 1]]⟩

/-- NEW-backend store holding only the ADM2 table. -/
def dbNB : String → Option DataFrame :=
  fun t => if t = "ken_admbnda_adm2_iebc_20191031" then some dfNB else none

/-- One-row point table (Portal3 fixture). -/
def df1 : DataFrame :=
  ⟨["name", "geom"], [[.vStr "a", .vGeom "Point" 0]]⟩

/-- Two-row polygon table (Portal3 fixture). -/
def df2 : DataFrame :=
  ⟨["kind", "geom"], [[.vStr "k", .vGeom "Polygon" 1], [.vStr "l", .vGeom "Polygon" 2]]⟩

/-- Two-row polygon table whose geometry column is named `geom2`, so its
column set is fully disjoint from `df1`. -/
def df4 : DataFrame :=
  ⟨["kind", "geom2"], [[.vStr "m", .vGeom "Polygon" 21], [.vStr "n", .vGeom "Polygon" 22]]⟩

/-- One-row table with a non-JSON-serializable attribute cell. -/
def dfb : DataFrame :=
  ⟨["data", "geom"], [[.vBytes [1, 2], .vGeom "Point" 3]]⟩

/-- Portal3 `geometry_columns` registry for the fixture tables. -/
def reg1 : List (String × Portal3.TableMeta) :=
  [("t1", ⟨"public", "geom", "Point"⟩),
   ("t2", ⟨"public", "geom", "Polygon"⟩),
   ("t4", ⟨"public", "geom2", "Polygon"⟩),
   ("tb", ⟨"public", "geom", "Point"⟩)]

/-- Portal3 store for the fixture tables. -/
def dfs1 : String → Option DataFrame :=
  fun t =>
    if t = "t1" then some df1
    else if t = "t2" then some df2
    else if t = "t4" then some df4
    else if t = "tb" then some dfb
    else none

/-! ## Helper lemmas -/

theorem findPair_eq_none {k : String} {l : List (String × Value)}
    (h : ∀ p ∈ l, p.1 ≠ k) : findPair k l = none := by
  induction l with
  | nil => rfl
  | cons p ps ih =>
      simp only [findPair]
      rw [if_neg (h p (List.mem_cons_self p ps))]
      exact ih (fun q hq => h q (List.mem_cons_of_mem p hq))

theorem findPair_append_none {k : String} {l1 l2 : List (String × Value)}
    (h : findPair k l1 = none) : findPair k (l1 ++ l2) = findPair k l2 := by
  induction l1 with
  | nil => rfl
  | cons p ps ih =>
      simp only [findPair] at h ⊢
      by_cases hp : p.1 = k
      · simp [hp] at h
      · rw [if_neg hp] at h ⊢
        exact ih h

theorem findPair_append_some {k : String} {l1 l2 : List (String × Value)}
    {p : String × Value} (h : findPair k l1 = some p) :
    findPair k (l1 ++ l2) = some p := by
  induction l1 with
  | nil => simp [findPair] at h
  | cons q qs ih =>
      simp only [findPair] at h ⊢
      by_cases hq : q.1 = k
      · rw [if_pos hq] at h ⊢
        exact h
      · rw [if_neg hq] at h ⊢
        exact ih h

theorem findPair_zip_none {k : String} {cols : List String} {row : List Value}
    (h : k ∉ cols) : findPair k (cols.zip row) = none :=
  findPair_eq_none (fun p hp he => h (he ▸ (List.of_mem_zip hp).1))

theorem findPair_filter_ne {k g : String} (l : List (String × Value))
    (hkg : k ≠ g) :
    findPair k (l.filter (fun p => p.1 ≠ g)) = findPair k l := by
  induction l with
  | nil => rfl
  | cons p ps ih =>
      simp only [List.filter_cons]
      by_cases hg : p.1 = g
      · have hp : ¬ p.1 = k := fun he => hkg (he.symm.trans hg)
        rw [if_neg (by simp [hg]), ih]
        simp only [findPair]
        rw [if_neg hp]
      · rw [if_pos (by simp [hg])]
        simp only [findPair]
        by_cases hp : p.1 = k
        · rw [if_pos hp, if_pos hp]
        · rw [if_neg hp, if_neg hp]
          exact ih

theorem findPair_map_snd {k : String} (l : List (String × Value))
    (f : Value → Value) :
    findPair k (l.map (fun kv => (kv.1, f kv.2)))
      = (findPair k l).map (fun kv => (kv.1, f kv.2)) := by
  induction l with
  | nil => rfl
  | cons p ps ih =>
      by_cases hp : p.1 = k
      · simp [findPair, hp]
      · simp [findPair, hp, ih]

theorem coerceValue_safe (v : Value) : (NewT.coerceValue v).jsonSafe = true := by
  unfold NewT.coerceValue
  by_cases h : v.jsonSafe = true
  · rw [if_pos h]
    exact h
  · rw [if_neg h]
    rfl

theorem findPair_setKey (obj : List (String × Value)) (k : String) (v : Value) :
    findPair k (Portal3.setKey obj k v) = some (k, v) := by
  unfold Portal3.setKey
  by_cases hany : obj.any (fun p => p.1 = k) = true
  · rw [if_pos hany]
    induction obj with
    | nil => simp at hany
    | cons p ps ih =>
        by_cases hp : p.1 = k
        · simp [findPair, hp]
        · have : ps.any (fun p => p.1 = k) = true := by
            simp only [List.any_cons] at hany
            rcases Bool.or_eq_true_iff.mp hany with h1 | h2
            · exact absurd (of_decide_eq_true h1) hp
            · exact h2
          simp [findPair, hp, ih this]
  · rw [if_neg hany]
    have hnone : findPair k obj = none := by
      apply findPair_eq_none
      intro p hp he
      exact hany (List.any_eq_true.mpr ⟨p, hp, by simp [he]⟩)
    rw [findPair_append_none hnone]
    simp [findPair]

theorem mem_numberFrom_snd {α : Type} {k : Nat} {l : List α} {p : Nat × α}
    (h : p ∈ numberFrom k l) : p.2 ∈ l := by
  induction l generalizing k with
  | nil => simp [numberFrom] at h
  | cons a as ih =>
      simp only [numberFrom, List.mem_cons] at h
      rcases h with h | h
      · simp [h]
      · exact List.mem_cons_of_mem a (ih h)

theorem map_numberFrom_eq {α β : Type} (k : Nat) (l : List α)
    (f : Nat × α → β) (g : Nat → β)
    (h : ∀ p ∈ numberFrom k l, f p = g p.1) :
    (numberFrom k l).map f = (natsFrom k l.length).map g := by
  induction l generalizing k with
  | nil => rfl
  | cons a as ih =>
      simp only [numberFrom, List.map_cons, List.length_cons, natsFrom]
      rw [h (k, a) (by simp [numberFrom])]
      rw [ih (k + 1) (fun p hp => h p (by simp [numberFrom, hp]))]

theorem numberFrom_length {α : Type} (k : Nat) (l : List α) :
    (numberFrom k l).length = l.length := by
  induction l generalizing k with
  | nil => rfl
  | cons a as ih => simp [numberFrom, ih]

theorem ilocRows_length {rows : List (List Value)} {sel : List Int}
    {rs : List (List Value)} (h : Portal3.ilocRows rows sel = .ok rs) :
    rs.length = sel.length := by
  induction sel generalizing rs with
  | nil =>
      simp only [Portal3.ilocRows] at h
      cases h
      rfl
  | cons i is ih =>
      simp only [Portal3.ilocRows] at h
      cases h1 : Portal3.ilocOne rows i with
      | error e => rw [h1] at h; cases h
      | ok r =>
          rw [h1] at h
          cases h2 : Portal3.ilocRows rows is with
          | error e => rw [h2] at h; cases h
          | ok rs0 =>
              rw [h2] at h
              cases h
              simp [ih h2]

theorem fsStep_scoped {d : String} {fs : List (String × Option String)}
    {ev : FsEvent} (hev : FsEvent.dir ev = d) (hfs : ∀ p ∈ fs, p.1 = d) :
    ∀ q ∈ fsStep fs ev, q.1 = d := by
  cases ev with
  | mkdir e =>
      intro q hq
      simp only [fsStep] at hq
      rcases List.mem_append.mp hq with h | h
      · exact hfs q h
      · rw [List.mem_singleton.mp h]
        exact hev
  | write e f =>
      intro q hq
      simp only [fsStep] at hq
      rcases List.mem_append.mp hq with h | h
      · exact hfs q h
      · rw [List.mem_singleton.mp h]
        exact hev
  | rmtree e =>
      intro q hq
      simp only [fsStep] at hq
      exact hfs q (List.mem_of_mem_filter hq)

theorem foldl_fsStep_scoped {d : String} (evs : List FsEvent)
    (hevs : ∀ ev ∈ evs, FsEvent.dir ev = d) :
    ∀ fs, (∀ p ∈ fs, p.1 = d) → ∀ q ∈ evs.foldl fsStep fs, q.1 = d := by
  induction evs with
  | nil =>
      intro fs hfs q hq
      exact hfs q hq
  | cons ev evs ih =>
      intro fs hfs q hq
      simp only [List.foldl_cons] at hq
      exact ih (fun e he => hevs e (List.mem_cons_of_mem _ he)) (fsStep fs ev)
        (fsStep_scoped (hevs ev (List.mem_cons_self _ _)) hfs) q hq

theorem replayFs_scoped_rmtree {d : String} (evs : List FsEvent)
    (hevs : ∀ ev ∈ evs, FsEvent.dir ev = d) :
    replayFs (evs ++ [FsEvent.rmtree d]) = [] := by
  unfold replayFs
  rw [List.foldl_append]
  simp only [List.foldl_cons, List.foldl_nil]
  simp only [fsStep]
  rw [List.filter_eq_nil_iff]
  intro p hp
  have hd := foldl_fsStep_scoped evs hevs [] (by intro p h; cases h) p hp
  simp [hd]

theorem objRowid_mkFeature (cols : List String) (row : List Value) (rid : Nat)
    (hrow : "_rowid" ∉ cols) :
    objRowid (NewT.mkFeature cols "geom" rid row).props = some (Value.vInt rid) := by
  unfold objRowid NewT.mkFeature
  simp only
  rw [findPair_filter_ne _ (by decide)]
  rw [findPair_append_none (findPair_zip_none hrow)]
  simp [findPair]

theorem objRowid_attrObj (cols : List String) (row : List Value) (rid : Nat)
    (hrow : "_rowid" ∉ cols) (hlen : row.length = cols.length) :
    objRowid (NewT.attrObj cols rid row) = some (Value.vInt rid) := by
  unfold objRowid NewT.attrObj
  rw [findPair_map_snd, findPair_filter_ne _ (by decide),
      List.zip_append hlen.symm,
      findPair_append_none (findPair_zip_none hrow)]
  simp [findPair, NewT.coerceValue, Value.jsonSafe]

theorem attrObj_eq_props (cols : List String) (row : List Value) (rid : Nat)
    (hlen : row.length = cols.length)
    (hsafe : ∀ kv ∈ cols.zip row, kv.1 ≠ "geom" → kv.2.jsonSafe = true) :
    NewT.attrObj cols rid row = (NewT.mkFeature cols "geom" rid row).props := by
  unfold NewT.attrObj NewT.mkFeature
  simp only
  rw [List.zip_append hlen.symm]
  simp only [List.zip_cons_cons, List.zip_nil_right]
  rw [List.filter_append, List.map_append]
  congr 1
  · conv_rhs => rw [← List.map_id (((cols.zip row)).filter (fun p => p.1 ≠ "geom"))]
    apply List.map_congr_left
    intro kv hkv
    have hkeep : kv.1 ≠ "geom" := by
      have := List.of_mem_filter hkv
      simpa using this
    simp [NewT.coerceValue, hsafe kv (List.mem_of_mem_filter hkv) hkeep]

theorem attrObj_values_safe (cols : List String) (rid : Nat) (row : List Value) :
    ∀ kv ∈ NewT.attrObj cols rid row, kv.2.jsonSafe = true := by
  intro kv hkv
  unfold NewT.attrObj at hkv
  rcases List.mem_map.mp hkv with ⟨q, _hq, he⟩
  rw [← he]
  exact coerceValue_safe q.2

theorem findPair_attrObj (cols : List String) (row : List Value) (rid : Nat)
    {k : String} {v : Value} (hlen : row.length = cols.length) (hk : k ≠ "geom")
    (hfind : findPair k (cols.zip row) = some (k, v)) :
    findPair k (NewT.attrObj cols rid row) = some (k, NewT.coerceValue v) := by
  unfold NewT.attrObj
  rw [findPair_map_snd, findPair_filter_ne _ hk, List.zip_append hlen.symm,
      findPair_append_some hfind]
  rfl

theorem findPair_zip_map_self (u : List String) (f : String → Value) {c : String}
    (h : c ∈ u) : findPair c (u.zip (u.map f)) = some (c, f c) := by
  induction u with
  | nil => cases h
  | cons a as ih =>
      simp only [List.map_cons, List.zip_cons_cons, findPair]
      by_cases ha : a = c
      · rw [if_pos ha, ha]
      · rw [if_neg ha]
        rcases List.mem_cons.mp h with h1 | h1
        · exact absurd h1.symm ha
        · exact ih h1

theorem colValue_reindex_not_mem (u cols : List String) (row : List Value)
    {c : String} (hc : c ∉ cols) :
    colValue u (Portal3.reindexRow u cols row) c = Value.vNull := by
  unfold colValue Portal3.reindexRow
  by_cases hu : c ∈ u
  · rw [findPair_zip_map_self u _ hu]
    show (match findPair c (cols.zip row) with
      | some p => p.2
      | none => Value.vNull) = Value.vNull
    rw [findPair_zip_none hc]
  · rw [findPair_eq_none (fun p hp he => hu (by
      rw [← he]
      exact (List.of_mem_zip hp).1))]

theorem collectFrames_two
    (reg : List (String × Portal3.TableMeta)) (dfs : String → Option DataFrame)
    (t1 t2 : String) (m1 m2 : Portal3.TableMeta) (dfa dfc : DataFrame)
    (sel1 sel2 : List Int) (rs1 rs2 : List (List Value))
    (h1 : Portal3.lookupTable reg t1 = some m1)
    (h2 : Portal3.lookupTable reg t2 = some m2)
    (hd1 : dfs t1 = some dfa) (hd2 : dfs t2 = some dfc)
    (ht1 : t1 ≠ "") (ht2 : t2 ≠ "")
    (hs1 : sel1 ≠ []) (hs2 : sel2 ≠ [])
    (hi1 : Portal3.ilocRows dfa.rows sel1 = .ok rs1)
    (hi2 : Portal3.ilocRows dfc.rows sel2 = .ok rs2) :
    Portal3.collectFrames reg dfs [(some t1, sel1), (some t2, sel2)]
      = .ok ([⟨dfa.cols, rs1⟩, ⟨dfc.cols, rs2⟩], [t1, t2]) := by
  simp [Portal3.collectFrames, h1, h2, hd1, hd2, hi1, hi2, ht1, ht2, hs1, hs2]

theorem unionCols_two (c1 c2 : List String) (r1 r2 : List (List Value))
    (hdisj : ∀ c ∈ c2, c ∉ c1) :
    Portal3.unionCols [⟨c1, r1⟩, ⟨c2, r2⟩] = c1 ++ c2 := by
  unfold Portal3.unionCols
  simp only [List.foldl_cons, List.foldl_nil, List.nil_append]
  rw [List.filter_eq_self.mpr (by intro a _; simp)]
  rw [List.filter_eq_self.mpr (by intro a ha; simp [hdisj a ha])]

theorem concatFrames_two (c1 c2 : List String) (r1 r2 : List (List Value)) :
    Portal3.concatFrames [⟨c1, r1⟩, ⟨c2, r2⟩]
      = ⟨Portal3.unionCols [⟨c1, r1⟩, ⟨c2, r2⟩],
         r1.map (Portal3.reindexRow (Portal3.unionCols [⟨c1, r1⟩, ⟨c2, r2⟩]) c1)
           ++ r2.map (Portal3.reindexRow (Portal3.unionCols [⟨c1, r1⟩, ⟨c2, r2⟩]) c2)⟩ := by
  unfold Portal3.concatFrames
  simp

theorem merge_layers_two
    (reg : List (String × Portal3.TableMeta)) (dfs : String → Option DataFrame)
    (t1 t2 : String) (m1 m2 : Portal3.TableMeta) (dfa dfc : DataFrame)
    (sel1 sel2 : List Int) (rs1 rs2 : List (List Value))
    (h1 : Portal3.lookupTable reg t1 = some m1)
    (h2 : Portal3.lookupTable reg t2 = some m2)
    (hd1 : dfs t1 = some dfa) (hd2 : dfs t2 = some dfc)
    (ht1 : t1 ≠ "") (ht2 : t2 ≠ "")
    (hs1 : sel1 ≠ []) (hs2 : sel2 ≠ [])
    (hi1 : Portal3.ilocRows dfa.rows sel1 = .ok rs1)
    (hi2 : Portal3.ilocRows dfc.rows sel2 = .ok rs2) :
    Portal3.merge_layers reg dfs true [(some t1, sel1), (some t2, sel2)]
      = ⟨.ok "merged_selection.zip", [t1, t2],
         [.mkdir "merge_tmp", .write "merge_tmp" "merged_selection.geojson",
          .write "merge_tmp" "merged_selection.zip"],
         Portal3.concatFrames [⟨dfa.cols, rs1⟩, ⟨dfc.cols, rs2⟩]⟩ := by
  unfold Portal3.merge_layers
  rw [if_neg (by simp)]
  rw [collectFrames_two reg dfs t1 t2 m1 m2 dfa dfc sel1 sel2 rs1 rs2
        h1 h2 hd1 hd2 ht1 ht2 hs1 hs2 hi1 hi2]
  rfl

theorem numberFrom_get? {α : Type} (k : Nat) (l : List α) (i : Nat) :
    (numberFrom k l).get? i = (l.get? i).map (fun a => (k + i, a)) := by
  induction l generalizing k i with
  | nil => simp [numberFrom]
  | cons a as ih =>
      cases i with
      | zero => simp [numberFrom]
      | succ j =>
          simp only [numberFrom, List.get?_cons_succ, ih (k + 1) j]
          have : k + 1 + j = k + (j + 1) := by omega
          rw [this]

theorem upload_trace_scoped (fn : String) (entries : List String) :
    ∀ ev ∈ ([FsEvent.mkdir "up_tmp", FsEvent.write "up_tmp" fn]
        ++ entries.map (fun f => FsEvent.write "up_tmp" f)),
      FsEvent.dir ev = "up_tmp" := by
  intro ev hev
  rcases List.mem_append.mp hev with h | h
  · rcases List.mem_cons.mp h with h1 | h1
    · rw [h1]
      rfl
    · rw [List.mem_singleton.mp h1]
      rfl
  · rcases List.mem_map.mp h with ⟨f, _, he⟩
    rw [← he]
    rfl

/-! ## Claim theorems -/

/-- C4: within one scan epoch (one `DataFrame`, no intervening writes),
the NEW backend's geometry-mode and attribute-mode fetches use the same
ordering criterion (`row_number() OVER ()` over the same scan), so the
`_rowid → row` correspondence agrees: when all cells are JSON-safe the
per-row property objects of the two modes are identical, feature by
feature. -/
theorem C4_epoch_correspondence (db : String → Option DataFrame)
    (t : String) (df : DataFrame)
    (ht : t ∈ NewT.allowedTables) (hdb : db t = some df) (hwf : df.wf)
    (hsafe : ∀ r ∈ df.rows, ∀ kv ∈ df.cols.zip r, kv.1 ≠ "geom" → kv.2.jsonSafe = true) :
    Except.map (fun fs => fs.map Feature.props)
        (NewT.fetch_geojson_from_table db t "geom").result
      = Except.map AttrOut.rows (NewT.fetch_attributes db t none).result := by
  simp only [NewT.fetch_geojson_from_table, NewT.fetch_attributes, if_pos ht, hdb]
  simp only [Except.map, List.map_map]
  congr 1
  apply List.map_congr_left
  intro p hp
  have hrow := mem_numberFrom_snd hp
  exact (attrObj_eq_props df.cols p.2 p.1 (hwf p.2 hrow) (hsafe p.2 hrow)).symm

/-- Witness for C4 at the ADM1 fixture epoch. -/
theorem C4_epoch_correspondence_witness :
    Except.map (fun fs => fs.map Feature.props)
        (NewT.fetch_geojson_from_table dbN "ken_admbnda_adm1_iebc_20191031" "geom").result
      = Except.map AttrOut.rows
          (NewT.fetch_attributes dbN "ken_admbnda_adm1_iebc_20191031" none).result :=
  C4_epoch_correspondence dbN "ken_admbnda_adm1_iebc_20191031" dfN
    (by decide) (by decide) (by unfold DataFrame.wf; decide) (by decide)

/-- C5 (code bug): the claim says every export removes its job-scoped
temporaries on every exit path.  The NEW backend does (its `finally`
removes the directory), but the PORTAL3 download route never removes its
temporary directory: at the concrete input (layer `t1`, selection `[0]`)
the call succeeds and the replayed filesystem trace leaves the directory,
the GeoJSON and the zip on disk. -/
theorem C5_portal3_download_leaves_temporaries :
    (Portal3.download_selected reg1 dfs1 true (some "t1", [0])).resp
        = Resp.ok "t1_selection.zip"
      ∧ replayFs (Portal3.download_selected reg1 dfs1 true (some "t1", [0])).events
        = [("dl_tmp", none), ("dl_tmp", some "t1_selection.geojson"),
           ("dl_tmp", some "t1_selection.zip")]
      ∧ replayFs (Portal3.download_selected reg1 dfs1 true (some "t1", [0])).events
        ≠ [] := by
  refine ⟨by decide, by decide, by decide⟩

/-- C10: the PORTAL3 export uses pandas positional indexing on the raw
selection: a negative index is accepted and selects from the end
(`-1` is the last row), while an index at or beyond the row count raises
an `IndexError` that surfaces as a 500 system-error response. -/
theorem C10_positional_indexing (reg : List (String × Portal3.TableMeta))
    (dfs : String → Option DataFrame) (t : String) (m : Portal3.TableMeta)
    (df : DataFrame) (hT : Portal3.lookupTable reg t = some m)
    (hd : dfs t = some df) (hn : df.rows ≠ []) :
    ((Portal3.download_selected reg dfs true (some t, [-1])).resp
        = Resp.ok (t ++ "_selection.zip")
      ∧ (df.rows.get? (df.rows.length - 1)).map (fun r => [r])
        = some (Portal3.download_selected reg dfs true (some t, [-1])).rows)
    ∧ (∀ i : Nat, df.rows.length ≤ i →
        (Portal3.download_selected reg dfs true (some t, [(i : Int)])).resp
          = Resp.err 500
              "Failed to fetch selected features: positional indexers are out-of-bounds") := by
  have hpos : 0 < df.rows.length := List.length_pos.mpr hn
  constructor
  · have hidx : Portal3.ilocIdx df.rows.length (-1) = some (df.rows.length - 1) := by
      unfold Portal3.ilocIdx
      rw [if_neg (by omega), if_pos (by constructor <;> omega)]
      congr 1
      omega
    obtain ⟨r, hr⟩ : ∃ r, df.rows.get? (df.rows.length - 1) = some r := by
      rw [List.get?_eq_get (by omega)]
      exact ⟨_, rfl⟩
    have hr' : df.rows[df.rows.length - 1]? = some r := by
      simpa using hr
    have hiloc : Portal3.ilocRows df.rows [-1] = .ok [r] := by
      simp [Portal3.ilocRows, Portal3.ilocOne, hidx, hr']
    simp only [Portal3.download_selected, hT, hd, hiloc]
    refine ⟨rfl, ?_⟩
    simpa using hr
  · intro i hi
    have hidx : Portal3.ilocIdx df.rows.length (i : Int) = none := by
      unfold Portal3.ilocIdx
      rw [if_neg (by omega), if_neg (by omega)]
    have hiloc : Portal3.ilocRows df.rows [(i : Int)]
        = .error "positional indexers are out-of-bounds" := by
      simp [Portal3.ilocRows, Portal3.ilocOne, hidx]
    simp [Portal3.download_selected, hT, hd, hiloc]

/-- Witness for C10 at the two-row fixture table `t2`. -/
theorem C10_positional_indexing_witness :
    ((Portal3.download_selected reg1 dfs1 true (some "t2", [-1])).resp
        = Resp.ok ("t2" ++ "_selection.zip")
      ∧ (df2.rows.get? (df2.rows.length - 1)).map (fun r => [r])
        = some (Portal3.download_selected reg1 dfs1 true (some "t2", [-1])).rows)
    ∧ (∀ i : Nat, df2.rows.length ≤ i →
        (Portal3.download_selected reg1 dfs1 true (some "t2", [(i : Int)])).resp
          = Resp.err 500
              "Failed to fetch selected features: positional indexers are out-of-bounds") :=
  C10_positional_indexing reg1 dfs1 "t2" ⟨"public", "geom", "Polygon"⟩ df2
    (by decide) (by decide) (by decide)

theorem get_attributes_rowids {reg : List (String × Portal3.TableMeta)}
    {dfs : String → Option DataFrame} {t : String} {aout : AttrOut}
    (hok : (Portal3.get_attributes reg dfs t).1 = Resp.ok aout) :
    aout.rows.map objRowid
      = (natsFrom 0 aout.rows.length).map (fun (i : Nat) => some (Value.vInt (i : Int))) := by
  unfold Portal3.get_attributes at hok
  cases hT : Portal3.lookupTable reg t with
  | none => rw [hT] at hok; simp at hok
  | some m =>
      rw [hT] at hok
      cases hd : dfs t with
      | none => rw [hd] at hok; simp at hok
      | some df =>
          rw [hd] at hok
          simp only [apply_ite Prod.fst] at hok
          split at hok
          · injection hok with h
            rw [← h]
            simp only [List.map_map]
            rw [map_numberFrom_eq 0 _ _ (fun (i : Nat) => some (Value.vInt (i : Int)))
                (fun p _ => by
                  simp only [Function.comp]
                  unfold objRowid
                  rw [findPair_setKey]
                  rfl)]
            simp only [List.length_map, numberFrom_length, List.length_take]
          · simp at hok

theorem get_attributes_length {reg : List (String × Portal3.TableMeta)}
    {dfs : String → Option DataFrame} {t : String} {m : Portal3.TableMeta}
    {df : DataFrame} {aout : AttrOut}
    (hT : Portal3.lookupTable reg t = some m) (hd : dfs t = some df)
    (hok : (Portal3.get_attributes reg dfs t).1 = Resp.ok aout) :
    aout.rows.length = min 1000 df.rows.length := by
  unfold Portal3.get_attributes at hok
  rw [hT, hd] at hok
  simp only [apply_ite Prod.fst] at hok
  split at hok
  · injection hok with h
    rw [← h]
    simp [numberFrom_length]
  · simp at hok

/-- C1 as stated is false: in the PORTAL3 backend the attribute rows of a
one-row layer carry `_rowid = 0` (pandas index), not the claimed set
`{1..N} = {1}` — and its geometry mode carries no `_rowid` at all. -/
theorem C1_cex :
    (Portal3.get_attributes reg1 dfs1 "t1").1
        = Resp.ok ⟨["name"], [[("name", Value.vStr "a"), ("_rowid", Value.vInt 0)]]⟩
      ∧ [[("name", Value.vStr "a"), ("_rowid", Value.vInt 0)]].map objRowid
        = [some (Value.vInt 0)]
      ∧ [some (Value.vInt 0)] ≠ [some (Value.vInt 1)] := by
  refine ⟨by decide, by decide, by decide⟩

/-- C1 (amended): in NEW/template both fetch modes tag rows with `_rowid`
values exactly `1..N`, each exactly once and in scan order; in
PORTAL3/BEST the attribute rows carry the 0-based ids
`0..min(1000,N)-1` instead, and geometry-mode properties contain no
`_rowid` key at all. -/
theorem C1_rowid_ranges (db : String → Option DataFrame) (t : String)
    (df : DataFrame) (ht : t ∈ NewT.allowedTables) (hdb : db t = some df)
    (hwf : df.wf) (hrow : "_rowid" ∉ df.cols)
    (reg : List (String × Portal3.TableMeta)) (dfs : String → Option DataFrame)
    (t3 : String) (m3 : Portal3.TableMeta) (df3 : DataFrame) (aout : AttrOut)
    (hT3 : Portal3.lookupTable reg t3 = some m3) (hd3 : dfs t3 = some df3)
    (hrow3 : "_rowid" ∉ df3.cols)
    (hok : (Portal3.get_attributes reg dfs t3).1 = Resp.ok aout) :
    (Except.map (fun fs => fs.map (fun f => objRowid f.props))
        (NewT.fetch_geojson_from_table db t "geom").result
      = .ok ((natsFrom 1 df.rows.length).map (fun (i : Nat) => some (Value.vInt (i : Int)))))
    ∧ (Except.map (fun a => a.rows.map objRowid)
        (NewT.fetch_attributes db t none).result
      = .ok ((natsFrom 1 df.rows.length).map (fun (i : Nat) => some (Value.vInt (i : Int)))))
    ∧ (aout.rows.map objRowid
      = (natsFrom 0 (min 1000 df3.rows.length)).map (fun (i : Nat) => some (Value.vInt (i : Int))))
    ∧ (∀ fc, (Portal3.get_layer_geojson reg dfs t3).1 = Resp.ok fc →
        ∀ f ∈ fc, objRowid f.props = none) := by
  refine ⟨?_, ?_, ?_, ?_⟩
  · simp only [NewT.fetch_geojson_from_table, if_pos ht, hdb]
    simp only [Except.map, List.map_map]
    congr 1
    simp only [Function.comp_def]
    exact map_numberFrom_eq 1 df.rows _ (fun (i : Nat) => some (Value.vInt (i : Int)))
      (fun p _ => objRowid_mkFeature df.cols p.2 p.1 hrow)
  · simp only [NewT.fetch_attributes, if_pos ht, hdb]
    simp only [Except.map, List.map_map]
    congr 1
    simp only [Function.comp_def]
    exact map_numberFrom_eq 1 df.rows _ (fun (i : Nat) => some (Value.vInt (i : Int)))
      (fun p hp => objRowid_attrObj df.cols p.2 p.1 hrow
        (hwf p.2 (mem_numberFrom_snd hp)))
  · rw [get_attributes_rowids hok, get_attributes_length hT3 hd3 hok]
  · intro fc hfc f hf
    unfold Portal3.get_layer_geojson at hfc
    rw [hT3, hd3] at hfc
    injection hfc with h
    rw [← h] at hf
    rcases List.mem_map.mp hf with ⟨r, _, hfe⟩
    rw [← hfe]
    unfold objRowid
    rw [findPair_eq_none (fun p hp he => hrow3 (by
      rw [← he]
      exact (List.of_mem_zip (List.mem_of_mem_filter hp)).1))]
    rfl

/-- Witness for the amended C1 at the ADM1 fixture (NEW) and the
one-row fixture table `t1` (PORTAL3). -/
theorem C1_rowid_ranges_witness :
    (Except.map (fun fs => fs.map (fun f => objRowid f.props))
        (NewT.fetch_geojson_from_table dbN "ken_admbnda_adm1_iebc_20191031" "geom").result
      = .ok ((natsFrom 1 dfN.rows.length).map (fun (i : Nat) => some (Value.vInt (i : Int)))))
    ∧ (Except.map (fun a => a.rows.map objRowid)
        (NewT.fetch_attributes dbN "ken_admbnda_adm1_iebc_20191031" none).result
      = .ok ((natsFrom 1 dfN.rows.length).map (fun (i : Nat) => some (Value.vInt (i : Int)))))
    ∧ ((AttrOut.mk ["name"] [[("name", Value.vStr "a"), ("_rowid", Value.vInt 0)]]).rows.map objRowid
      = (natsFrom 0 (min 1000 df1.rows.length)).map (fun (i : Nat) => some (Value.vInt (i : Int))))
    ∧ (∀ fc, (Portal3.get_layer_geojson reg1 dfs1 "t1").1 = Resp.ok fc →
        ∀ f ∈ fc, objRowid f.props = none) :=
  C1_rowid_ranges dbN "ken_admbnda_adm1_iebc_20191031" dfN
    (by decide) (by decide) (by unfold DataFrame.wf; decide) (by decide)
    reg1 dfs1 "t1" ⟨"public", "geom", "Point"⟩ df1
    ⟨["name"], [[("name", Value.vStr "a"), ("_rowid", Value.vInt 0)]]⟩
    (by decide) (by decide) (by decide) (by decide)

/-- C2 as stated is false: the PORTAL3 export performs no range
filtering.  At layer `t1` (one row) with selection `[0]`, the claim
demands `S ∩ [1,1] = ∅` and hence an EmptySelection error, but the code
accepts `0` as a positional index and returns the first row
successfully. -/
theorem C2_cex :
    (Portal3.download_selected reg1 dfs1 true (some "t1", [0])).resp
        = Resp.ok "t1_selection.zip"
      ∧ (Portal3.download_selected reg1 dfs1 true (some "t1", [0])).rows
        = [[Value.vStr "a", Value.vGeom "Point" 0]] := by
  refine ⟨by decide, by decide⟩

/-- C2 (amended): NEW/template resolves a selection to exactly the
integer candidates (ints or digit strings) lying in `[1,N]`, silently
dropping the rest, and reports the empty-selection error exactly when
nothing remains.  PORTAL3/BEST performs no such resolution: the raw
integers are used as 0-based positional indices, so any in-bounds
(possibly 0 or negative) list is accepted and returns exactly those
rows. -/
theorem C2_selection_resolution (selected : List Value)
    (db : String → Option DataFrame) (w : Bool) (k : String)
    (m : NewT.LayerMeta) (df : DataFrame)
    (hk : NewT.lookupLayer k = some m) (hsel : selected ≠ [])
    (hdb : db m.table = some df) (hne : df.rows ≠ [])
    (reg : List (String × Portal3.TableMeta)) (dfs : String → Option DataFrame)
    (t3 : String) (m3 : Portal3.TableMeta) (df3 : DataFrame)
    (sel3 : List Int) (rs3 : List (List Value))
    (hT3 : Portal3.lookupTable reg t3 = some m3) (hd3 : dfs t3 = some df3)
    (hs3 : sel3 ≠ []) (hi3 : Portal3.ilocRows df3.rows sel3 = .ok rs3) :
    (∀ x : Int, x ∈ NewT.sel_valid selected df.rows.length ↔
       ((∃ v ∈ selected, NewT.toCandidate v = some x)
         ∧ 1 ≤ x ∧ x ≤ (df.rows.length : Int)))
    ∧ ((NewT.download_selection db w (some (some k, selected))).resp
         = Resp.err 400 "No valid selection indices"
       ↔ NewT.sel_valid selected df.rows.length = [])
    ∧ ((Portal3.download_selected reg dfs true (some t3, sel3)).resp
         = Resp.ok (t3 ++ "_selection.zip")
       ∧ (Portal3.download_selected reg dfs true (some t3, sel3)).rows = rs3) := by
  have hselE : selected.isEmpty = false := by
    cases selected with
    | nil => exact absurd rfl hsel
    | cons a as => rfl
  have hneE : df.rows.isEmpty = false := by
    cases hrows : df.rows with
    | nil => exact absurd hrows hne
    | cons a as => rfl
  have hs3E : sel3.isEmpty = false := by
    cases sel3 with
    | nil => exact absurd rfl hs3
    | cons a as => rfl
  refine ⟨?_, ?_, ?_, ?_⟩
  · intro x
    simp [NewT.sel_valid, List.mem_filter, List.mem_filterMap]
  · by_cases hv : NewT.sel_valid selected df.rows.length = []
    · simp [NewT.download_selection, hk, hdb, hselE, hneE, hv]
    · cases w <;> simp [NewT.download_selection, hk, hdb, hselE, hneE, hv]
  · simp [Portal3.download_selected, hT3, hd3, hi3, hs3E]
  · simp [Portal3.download_selected, hT3, hd3, hi3, hs3E]

/-- Witness for the amended C2: mixed valid/stale/malformed candidates
against the ADM1 fixture, and the positional PORTAL3 export at `t1`. -/
theorem C2_selection_resolution_witness :
    (∀ x : Int,
       x ∈ NewT.sel_valid [Value.vInt 1, Value.vStr "2", Value.vInt 0, Value.vStr "x"]
             dfN.rows.length ↔
       ((∃ v ∈ [Value.vInt 1, Value.vStr "2", Value.vInt 0, Value.vStr "x"],
            NewT.toCandidate v = some x)
         ∧ 1 ≤ x ∧ x ≤ (dfN.rows.length : Int)))
    ∧ ((NewT.download_selection dbN true
          (some (some "adm1", [Value.vInt 1, Value.vStr "2", Value.vInt 0, Value.vStr "x"]))).resp
         = Resp.err 400 "No valid selection indices"
       ↔ NewT.sel_valid [Value.vInt 1, Value.vStr "2", Value.vInt 0, Value.vStr "x"]
             dfN.rows.length = [])
    ∧ ((Portal3.download_selected reg1 dfs1 true (some "t1", [0])).resp
         = Resp.ok ("t1" ++ "_selection.zip")
       ∧ (Portal3.download_selected reg1 dfs1 true (some "t1", [0])).rows
         = [[Value.vStr "a", Value.vGeom "Point" 0]]) :=
  C2_selection_resolution [Value.vInt 1, Value.vStr "2", Value.vInt 0, Value.vStr "x"]
    dbN true "adm1" ⟨"ken_admbnda_adm1_iebc_20191031", "Counties (ADM1)", "polygon", "#0277bd"⟩
    dfN (by decide) (by decide) (by decide) (by decide)
    reg1 dfs1 "t1" ⟨"public", "geom", "Point"⟩ df1 [0]
    [[Value.vStr "a", Value.vGeom "Point" 0]]
    (by decide) (by decide) (by decide) (by decide)

/-- C3 as stated is false for the merge operation: a request naming the
unknown layer `ghost` together with valid layer `t1` is not rejected
with a NotFound error — the unknown name is silently skipped (no query
is built from it, as `queried = ["t1"]` shows) and the merge succeeds. -/
theorem C3_cex :
    (Portal3.merge_layers reg1 dfs1 true [(some "ghost", [0]), (some "t1", [0])]).resp
        = Resp.ok "merged_selection.zip"
      ∧ (Portal3.merge_layers reg1 dfs1 true [(some "ghost", [0]), (some "t1", [0])]).queried
        = ["t1"] := by
  refine ⟨by decide, by decide⟩

/-- C3 (amended): every operation checks the client-supplied layer name
against the current catalog before building any SQL text or file path
from it, and builds none from an unknown name.  The fetch routes of both
backends and the PORTAL3 export reject an unknown name with a 404
NotFound; the NEW export rejects it with a 400 invalid-layer error; the
PORTAL3 merge silently skips the unknown entry rather than rejecting the
request. -/
theorem C3_catalog_gate (db : String → Option DataFrame) (w : Bool)
    (k tn : String) (sel : List Value) (limit : Option Nat)
    (hk : NewT.lookupLayer k = none) (htn : tn ∉ NewT.allowedTables)
    (reg : List (String × Portal3.TableMeta)) (dfs : String → Option DataFrame)
    (t : String) (sel3 : List Int) (rest : List (Option String × List Int))
    (hT : Portal3.lookupTable reg t = none) :
    (NewT.data_layer db k = (Resp.err 404 "Unknown layer key", []))
    ∧ (NewT.attributes_route db k = (Resp.err 404 "Unknown layer key", []))
    ∧ (NewT.download_selection db w (some (some k, sel))
        = ⟨Resp.err 400 "Invalid layer key", [], [], []⟩)
    ∧ (NewT.fetch_geojson_from_table db tn "geom"
        = ⟨.error "Table not recognized", []⟩)
    ∧ (NewT.fetch_attributes db tn limit = ⟨.error "Table not recognized", []⟩)
    ∧ (Portal3.get_layer_geojson reg dfs t = (Resp.err 404 "Layer not found", []))
    ∧ (Portal3.get_attributes reg dfs t = (Resp.err 404 "Layer not found", []))
    ∧ (Portal3.download_selected reg dfs w (some t, sel3)
        = ⟨Resp.err 404 "Layer not found", [], [], []⟩)
    ∧ (Portal3.collectFrames reg dfs ((some t, sel3) :: rest)
        = Portal3.collectFrames reg dfs rest) := by
  refine ⟨?_, ?_, ?_, ?_, ?_, ?_, ?_, ?_, ?_⟩
  · simp [NewT.data_layer, hk]
  · simp [NewT.attributes_route, hk]
  · simp [NewT.download_selection, hk]
  · simp [NewT.fetch_geojson_from_table, htn]
  · simp [NewT.fetch_attributes, htn]
  · simp [Portal3.get_layer_geojson, hT]
  · simp [Portal3.get_attributes, hT]
  · simp [Portal3.download_selected, hT]
  · by_cases hc : t = "" ∨ sel3.isEmpty = true
    · simp only [Portal3.collectFrames]
      rw [if_pos hc]
    · simp only [Portal3.collectFrames]
      rw [if_neg hc, hT]

/-- Witness for the amended C3 with the unknown names `nope` (NEW) and
`ghost` (PORTAL3). -/
theorem C3_catalog_gate_witness :
    (NewT.data_layer dbN "nope" = (Resp.err 404 "Unknown layer key", []))
    ∧ (NewT.attributes_route dbN "nope" = (Resp.err 404 "Unknown layer key", []))
    ∧ (NewT.download_selection dbN true (some (some "nope", [Value.vInt 1]))
        = ⟨Resp.err 400 "Invalid layer key", [], [], []⟩)
    ∧ (NewT.fetch_geojson_from_table dbN "users" "geom"
        = ⟨.error "Table not recognized", []⟩)
    ∧ (NewT.fetch_attributes dbN "users" none = ⟨.error "Table not recognized", []⟩)
    ∧ (Portal3.get_layer_geojson reg1 dfs1 "ghost" = (Resp.err 404 "Layer not found", []))
    ∧ (Portal3.get_attributes reg1 dfs1 "ghost" = (Resp.err 404 "Layer not found", []))
    ∧ (Portal3.download_selected reg1 dfs1 true (some "ghost", [0])
        = ⟨Resp.err 404 "Layer not found", [], [], []⟩)
    ∧ (Portal3.collectFrames reg1 dfs1 ((some "ghost", [0]) :: [(some "t1", [0])])
        = Portal3.collectFrames reg1 dfs1 [(some "t1", [0])]) :=
  C3_catalog_gate dbN true "nope" "users" [Value.vInt 1] none
    (by decide) (by decide) reg1 dfs1 "ghost" [0] [(some "t1", [0])] (by decide)

/-- C6: merging two layers with disjoint column sets and resolved
selections of sizes `a` and `b` yields exactly `a+b` features; the
result schema is the union of both layers' columns, and each feature is
null at every column belonging only to the other layer. -/
theorem C6_merge_union_schema (reg : List (String × Portal3.TableMeta))
    (dfs : String → Option DataFrame) (t1 t2 : String)
    (m1 m2 : Portal3.TableMeta) (dfa dfc : DataFrame)
    (sel1 sel2 : List Int) (rs1 rs2 : List (List Value))
    (h1 : Portal3.lookupTable reg t1 = some m1)
    (h2 : Portal3.lookupTable reg t2 = some m2)
    (hd1 : dfs t1 = some dfa) (hd2 : dfs t2 = some dfc)
    (ht1 : t1 ≠ "") (ht2 : t2 ≠ "")
    (hs1 : sel1 ≠ []) (hs2 : sel2 ≠ [])
    (hi1 : Portal3.ilocRows dfa.rows sel1 = .ok rs1)
    (hi2 : Portal3.ilocRows dfc.rows sel2 = .ok rs2)
    (hdisj : ∀ c ∈ dfc.cols, c ∉ dfa.cols) :
    ((Portal3.merge_layers reg dfs true [(some t1, sel1), (some t2, sel2)]).resp
        = Resp.ok "merged_selection.zip")
    ∧ ((Portal3.merge_layers reg dfs true [(some t1, sel1), (some t2, sel2)]).merged.rows.length
        = sel1.length + sel2.length)
    ∧ ((Portal3.merge_layers reg dfs true [(some t1, sel1), (some t2, sel2)]).merged.cols
        = dfa.cols ++ dfc.cols)
    ∧ (∀ c, c ∈ (Portal3.merge_layers reg dfs true [(some t1, sel1), (some t2, sel2)]).merged.cols
        ↔ (c ∈ dfa.cols ∨ c ∈ dfc.cols))
    ∧ (∀ i r, i < sel1.length →
        (Portal3.merge_layers reg dfs true [(some t1, sel1), (some t2, sel2)]).merged.rows.get? i
          = some r →
        ∀ c ∈ dfc.cols,
          colValue (Portal3.merge_layers reg dfs true
              [(some t1, sel1), (some t2, sel2)]).merged.cols r c = Value.vNull)
    ∧ (∀ i r, sel1.length ≤ i →
        (Portal3.merge_layers reg dfs true [(some t1, sel1), (some t2, sel2)]).merged.rows.get? i
          = some r →
        ∀ c ∈ dfa.cols,
          colValue (Portal3.merge_layers reg dfs true
              [(some t1, sel1), (some t2, sel2)]).merged.cols r c = Value.vNull) := by
  have hml := merge_layers_two reg dfs t1 t2 m1 m2 dfa dfc sel1 sel2 rs1 rs2
    h1 h2 hd1 hd2 ht1 ht2 hs1 hs2 hi1 hi2
  have hl1 := ilocRows_length hi1
  have hl2 := ilocRows_length hi2
  rw [hml, concatFrames_two, unionCols_two dfa.cols dfc.cols rs1 rs2 hdisj]
  refine ⟨rfl, ?_, rfl, ?_, ?_, ?_⟩
  · simp [hl1, hl2]
  · intro c
    simp [List.mem_append]
  · intro i r hi hr c hc
    rw [List.get?_append (by rw [List.length_map, hl1]; exact hi)] at hr
    rw [List.get?_map] at hr
    cases hx : rs1.get? i with
    | none => rw [hx] at hr; cases hr
    | some r0 =>
        rw [hx] at hr
        injection hr with he
        rw [← he]
        exact colValue_reindex_not_mem _ _ _ (hdisj c hc)
  · intro i r hi hr c hc
    rw [List.get?_append_right (by rw [List.length_map, hl1]; exact hi)] at hr
    rw [List.get?_map] at hr
    cases hx : rs2.get? (i - (rs1.map (Portal3.reindexRow (dfa.cols ++ dfc.cols) dfa.cols)).length) with
    | none => rw [hx] at hr; cases hr
    | some r0 =>
        rw [hx] at hr
        injection hr with he
        rw [← he]
        exact colValue_reindex_not_mem _ _ _ (fun hcc => hdisj c hcc hc)

/-- Witness for C6: merging the disjoint-schema fixtures `t1`
(columns name, geom) and `t4` (columns kind, geom2). -/
theorem C6_merge_union_schema_witness :
    ((Portal3.merge_layers reg1 dfs1 true [(some "t1", [0]), (some "t4", [0, 1])]).resp
        = Resp.ok "merged_selection.zip")
    ∧ ((Portal3.merge_layers reg1 dfs1 true [(some "t1", [0]), (some "t4", [0, 1])]).merged.rows.length
        = ([0] : List Int).length + ([0, 1] : List Int).length)
    ∧ ((Portal3.merge_layers reg1 dfs1 true [(some "t1", [0]), (some "t4", [0, 1])]).merged.cols
        = df1.cols ++ df4.cols)
    ∧ (∀ c, c ∈ (Portal3.merge_layers reg1 dfs1 true [(some "t1", [0]), (some "t4", [0, 1])]).merged.cols
        ↔ (c ∈ df1.cols ∨ c ∈ df4.cols))
    ∧ (∀ i r, i < ([0] : List Int).length →
        (Portal3.merge_layers reg1 dfs1 true [(some "t1", [0]), (some "t4", [0, 1])]).merged.rows.get? i
          = some r →
        ∀ c ∈ df4.cols,
          colValue (Portal3.merge_layers reg1 dfs1 true
              [(some "t1", [0]), (some "t4", [0, 1])]).merged.cols r c = Value.vNull)
    ∧ (∀ i r, ([0] : List Int).length ≤ i →
        (Portal3.merge_layers reg1 dfs1 true [(some "t1", [0]), (some "t4", [0, 1])]).merged.rows.get? i
          = some r →
        ∀ c ∈ df1.cols,
          colValue (Portal3.merge_layers reg1 dfs1 true
              [(some "t1", [0]), (some "t4", [0, 1])]).merged.cols r c = Value.vNull) :=
  C6_merge_union_schema reg1 dfs1 "t1" "t4"
    ⟨"public", "geom", "Point"⟩ ⟨"public", "geom2", "Polygon"⟩ df1 df4
    [0] [0, 1] [[Value.vStr "a", Value.vGeom "Point" 0]]
    [[Value.vStr "m", Value.vGeom "Polygon" 21], [Value.vStr "n", Value.vGeom "Polygon" 22]]
    (by decide) (by decide) (by decide) (by decide) (by decide) (by decide)
    (by decide) (by decide) (by decide) (by decide) (by decide)

/-- C7 as stated is false: the merge endpoint has no Shapefile target at
all, so a mixed-geometry merge is never rejected with
IncompatibleGeometryMix.  At the concrete mixed input (`t1` is Point,
`t2` is Polygon) the merge simply succeeds, encoding GeoJSON — the trace
shows the only artifacts are `merged_selection.geojson` and its zip. -/
theorem C7_cex :
    (Portal3.merge_layers reg1 dfs1 true [(some "t1", [0]), (some "t2", [0, 1])]).resp
        = Resp.ok "merged_selection.zip"
      ∧ (Portal3.merge_layers reg1 dfs1 true [(some "t1", [0]), (some "t2", [0, 1])]).events
        = [.mkdir "merge_tmp", .write "merge_tmp" "merged_selection.geojson",
           .write "merge_tmp" "merged_selection.zip"] := by
  refine ⟨by decide, by decide⟩

/-- C7 (amended): the multi-layer merge always encodes to GeoJSON (which
supports heterogeneous geometries); a merge whose two layers have
different registered geometry types succeeds and writes exactly the
GeoJSON artifact and its zip — no Shapefile export path and no
IncompatibleGeometryMix error exist for merges. -/
theorem C7_mixed_geometry_geojson (reg : List (String × Portal3.TableMeta))
    (dfs : String → Option DataFrame) (t1 t2 : String)
    (m1 m2 : Portal3.TableMeta) (dfa dfc : DataFrame)
    (sel1 sel2 : List Int) (rs1 rs2 : List (List Value))
    (h1 : Portal3.lookupTable reg t1 = some m1)
    (h2 : Portal3.lookupTable reg t2 = some m2)
    (hd1 : dfs t1 = some dfa) (hd2 : dfs t2 = some dfc)
    (ht1 : t1 ≠ "") (ht2 : t2 ≠ "")
    (hs1 : sel1 ≠ []) (hs2 : sel2 ≠ [])
    (hi1 : Portal3.ilocRows dfa.rows sel1 = .ok rs1)
    (hi2 : Portal3.ilocRows dfc.rows sel2 = .ok rs2)
    (hmix : m1.geomType ≠ m2.geomType) :
    ((Portal3.merge_layers reg dfs true [(some t1, sel1), (some t2, sel2)]).resp
        = Resp.ok "merged_selection.zip")
    ∧ ((Portal3.merge_layers reg dfs true [(some t1, sel1), (some t2, sel2)]).events
        = [.mkdir "merge_tmp", .write "merge_tmp" "merged_selection.geojson",
           .write "merge_tmp" "merged_selection.zip"]) := by
  rw [merge_layers_two reg dfs t1 t2 m1 m2 dfa dfc sel1 sel2 rs1 rs2
    h1 h2 hd1 hd2 ht1 ht2 hs1 hs2 hi1 hi2]
  exact ⟨rfl, rfl⟩

/-- Witness for the amended C7: the Point layer `t1` merged with the
Polygon layer `t2`. -/
theorem C7_mixed_geometry_geojson_witness :
    ((Portal3.merge_layers reg1 dfs1 true [(some "t1", [0]), (some "t2", [1])]).resp
        = Resp.ok "merged_selection.zip")
    ∧ ((Portal3.merge_layers reg1 dfs1 true [(some "t1", [0]), (some "t2", [1])]).events
        = [.mkdir "merge_tmp", .write "merge_tmp" "merged_selection.geojson",
           .write "merge_tmp" "merged_selection.zip"]) :=
  C7_mixed_geometry_geojson reg1 dfs1 "t1" "t2"
    ⟨"public", "geom", "Point"⟩ ⟨"public", "geom", "Polygon"⟩ df1 df2
    [0] [1] [[Value.vStr "a", Value.vGeom "Point" 0]]
    [[Value.vStr "l", Value.vGeom "Polygon" 2]]
    (by decide) (by decide) (by decide) (by decide) (by decide) (by decide)
    (by decide) (by decide) (by decide) (by decide) (by decide)

/-- C8: ingestion rejects before publishing — a 400 invalid-name error
when the normalised desired name is not a safe identifier, NameConflict
for an existing name with the store untouched — in both cases before any
temporary is even created; rejection when the archive has no `.shp`
descriptor or the parsed feature set is empty; the store write is the
single `to_postgis` call, so a failed write leaves no partial table
visible, and a successful one publishes exactly the new entry.  All
unpack temporaries are removed on every terminal path. -/
theorem C8_ingestion_guards (tables : List (String × DataFrame))
    (req : Portal3.UploadReq) (wOk : Bool) (entries : List String)
    (gdf : DataFrame) (hf : req.hasFile = true) (hn : req.filename ≠ "") :
    (Portal3.isPyIdentifier (Portal3.pyNormalize req.tablename) = false →
      Portal3.upload_shapefile tables wOk req
        = (tables,
           Resp.err 400 "Invalid table name. Use only letters, digits, and underscores.",
           []))
    ∧ (Portal3.isPyIdentifier (Portal3.pyNormalize req.tablename) = true →
      Portal3.pyNormalize req.tablename ∈ tables.map (fun p => p.1) →
      Portal3.upload_shapefile tables wOk req
        = (tables, Resp.err 400 "Table already exists. Choose another name.", []))
    ∧ (Portal3.isPyIdentifier (Portal3.pyNormalize req.tablename) = true →
      Portal3.pyNormalize req.tablename ∉ tables.map (fun p => p.1) →
      req.zipEntries = .ok entries →
      entries.filter (fun f => Portal3.strEndsWith f ".shp") = [] →
      ((Portal3.upload_shapefile tables wOk req).1 = tables
       ∧ (Portal3.upload_shapefile tables wOk req).2.1
           = Resp.err 400 "No .shp file found in archive."
       ∧ replayFs (Portal3.upload_shapefile tables wOk req).2.2 = []))
    ∧ (Portal3.isPyIdentifier (Portal3.pyNormalize req.tablename) = true →
      Portal3.pyNormalize req.tablename ∉ tables.map (fun p => p.1) →
      req.zipEntries = .ok entries →
      entries.filter (fun f => Portal3.strEndsWith f ".shp") ≠ [] →
      req.parseShp = .ok gdf → gdf.rows = [] →
      ((Portal3.upload_shapefile tables wOk req).1 = tables
       ∧ (Portal3.upload_shapefile tables wOk req).2.1
           = Resp.err 400 "Shapefile contains no features."
       ∧ replayFs (Portal3.upload_shapefile tables wOk req).2.2 = []))
    ∧ (Portal3.isPyIdentifier (Portal3.pyNormalize req.tablename) = true →
      Portal3.pyNormalize req.tablename ∉ tables.map (fun p => p.1) →
      req.zipEntries = .ok entries →
      entries.filter (fun f => Portal3.strEndsWith f ".shp") ≠ [] →
      req.parseShp = .ok gdf → gdf.rows ≠ [] → wOk = false →
      ((Portal3.upload_shapefile tables wOk req).1 = tables
       ∧ (Portal3.upload_shapefile tables wOk req).2.1
           = Resp.err 500 "Failed to save to PostGIS: write raised"
       ∧ replayFs (Portal3.upload_shapefile tables wOk req).2.2 = []))
    ∧ (Portal3.isPyIdentifier (Portal3.pyNormalize req.tablename) = true →
      Portal3.pyNormalize req.tablename ∉ tables.map (fun p => p.1) →
      req.zipEntries = .ok entries →
      entries.filter (fun f => Portal3.strEndsWith f ".shp") ≠ [] →
      req.parseShp = .ok gdf → gdf.rows ≠ [] → wOk = true →
      ((Portal3.upload_shapefile tables wOk req).1
          = tables ++ [(Portal3.pyNormalize req.tablename, gdf)]
       ∧ (Portal3.upload_shapefile tables wOk req).2.1
           = Resp.ok ("Layer " ++ Portal3.pyNormalize req.tablename ++ " uploaded successfully!")
       ∧ replayFs (Portal3.upload_shapefile tables wOk req).2.2 = [])) := by
  refine ⟨?_, ?_, ?_, ?_, ?_, ?_⟩
  · intro hid0
    simp [Portal3.upload_shapefile, hf, hn, hid0]
  · intro hid hc
    simp [Portal3.upload_shapefile, hf, hn, hid, hc]
  · intro hid hc hz hshp
    have hshpE : (entries.filter (fun f => Portal3.strEndsWith f ".shp")).isEmpty = true := by
      rw [hshp]
      rfl
    have heq : Portal3.upload_shapefile tables wOk req
        = (tables, Resp.err 400 "No .shp file found in archive.",
           ([FsEvent.mkdir "up_tmp", FsEvent.write "up_tmp" req.filename]
              ++ entries.map (fun f => FsEvent.write "up_tmp" f))
             ++ [FsEvent.rmtree "up_tmp"]) := by
      simp [Portal3.upload_shapefile, hf, hn, hid, hc, hz, hshpE]
    refine ⟨by rw [heq], by rw [heq], ?_⟩
    rw [heq]
    exact replayFs_scoped_rmtree _ (upload_trace_scoped req.filename entries)
  · intro hid hc hz hshp hp hge
    have hshpE : (entries.filter (fun f => Portal3.strEndsWith f ".shp")).isEmpty = false := by
      cases hfil : entries.filter (fun f => Portal3.strEndsWith f ".shp") with
      | nil => exact absurd hfil hshp
      | cons a as => rfl
    have hgeE : gdf.rows.isEmpty = true := by
      rw [hge]
      rfl
    have heq : Portal3.upload_shapefile tables wOk req
        = (tables, Resp.err 400 "Shapefile contains no features.",
           ([FsEvent.mkdir "up_tmp", FsEvent.write "up_tmp" req.filename]
              ++ entries.map (fun f => FsEvent.write "up_tmp" f))
             ++ [FsEvent.rmtree "up_tmp"]) := by
      simp [Portal3.upload_shapefile, hf, hn, hid, hc, hz, hshpE, hp, hgeE]
    refine ⟨by rw [heq], by rw [heq], ?_⟩
    rw [heq]
    exact replayFs_scoped_rmtree _ (upload_trace_scoped req.filename entries)
  · intro hid hc hz hshp hp hge hw
    have hshpE : (entries.filter (fun f => Portal3.strEndsWith f ".shp")).isEmpty = false := by
      cases hfil : entries.filter (fun f => Portal3.strEndsWith f ".shp") with
      | nil => exact absurd hfil hshp
      | cons a as => rfl
    have hgeE : gdf.rows.isEmpty = false := by
      cases hrows : gdf.rows with
      | nil => exact absurd hrows hge
      | cons a as => rfl
    have heq : Portal3.upload_shapefile tables wOk req
        = (tables, Resp.err 500 "Failed to save to PostGIS: write raised",
           ([FsEvent.mkdir "up_tmp", FsEvent.write "up_tmp" req.filename]
              ++ entries.map (fun f => FsEvent.write "up_tmp" f))
             ++ [FsEvent.rmtree "up_tmp"]) := by
      simp [Portal3.upload_shapefile, hf, hn, hid, hc, hz, hshpE, hp, hgeE, hw]
    refine ⟨by rw [heq], by rw [heq], ?_⟩
    rw [heq]
    exact replayFs_scoped_rmtree _ (upload_trace_scoped req.filename entries)
  · intro hid hc hz hshp hp hge hw
    have hshpE : (entries.filter (fun f => Portal3.strEndsWith f ".shp")).isEmpty = false := by
      cases hfil : entries.filter (fun f => Portal3.strEndsWith f ".shp") with
      | nil => exact absurd hfil hshp
      | cons a as => rfl
    have hgeE : gdf.rows.isEmpty = false := by
      cases hrows : gdf.rows with
      | nil => exact absurd hrows hge
      | cons a as => rfl
    have heq : Portal3.upload_shapefile tables wOk req
        = (tables ++ [(Portal3.pyNormalize req.tablename, gdf)],
           Resp.ok ("Layer " ++ Portal3.pyNormalize req.tablename ++ " uploaded successfully!"),
           ([FsEvent.mkdir "up_tmp", FsEvent.write "up_tmp" req.filename]
              ++ entries.map (fun f => FsEvent.write "up_tmp" f))
             ++ [FsEvent.rmtree "up_tmp"]) := by
      simp [Portal3.upload_shapefile, hf, hn, hid, hc, hz, hshpE, hp, hgeE, hw]
    refine ⟨by rw [heq], by rw [heq], ?_⟩
    rw [heq]
    exact replayFs_scoped_rmtree _ (upload_trace_scoped req.filename entries)

/-- Witness for C8: the unsafe name `9rivers` is rejected with the
invalid-name error and no state change, while a fresh upload named
`Rivers ` (normalised to `rivers`) into a store holding only `roads`
publishes exactly the new table and leaves no temporaries. -/
theorem C8_ingestion_guards_witness :
    (Portal3.upload_shapefile [("roads", df1)] true
        ⟨true, "x.zip", "9rivers", .ok ["a.shp"], .ok df2⟩
      = ([("roads", df1)],
         Resp.err 400 "Invalid table name. Use only letters, digits, and underscores.",
         []))
    ∧ ((Portal3.upload_shapefile [("roads", df1)] true
        ⟨true, "x.zip", "Rivers ", .ok ["a.shp", "a.dbf"], .ok df2⟩).1
      = [("roads", df1)]
          ++ [(Portal3.pyNormalize "Rivers ", df2)])
    ∧ ((Portal3.upload_shapefile [("roads", df1)] true
        ⟨true, "x.zip", "Rivers ", .ok ["a.shp", "a.dbf"], .ok df2⟩).2.1
      = Resp.ok ("Layer " ++ Portal3.pyNormalize "Rivers " ++ " uploaded successfully!"))
    ∧ replayFs (Portal3.upload_shapefile [("roads", df1)] true
        ⟨true, "x.zip", "Rivers ", .ok ["a.shp", "a.dbf"], .ok df2⟩).2.2 = [] := by
  have hbad := (C8_ingestion_guards [("roads", df1)]
      ⟨true, "x.zip", "9rivers", .ok ["a.shp"], .ok df2⟩ true
      ["a.shp"] df2 (by decide) (by decide)).1 (by decide)
  have hgood := (C8_ingestion_guards [("roads", df1)]
      ⟨true, "x.zip", "Rivers ", .ok ["a.shp", "a.dbf"], .ok df2⟩ true
      ["a.shp", "a.dbf"] df2 (by decide) (by decide)).2.2.2.2.2
    (by decide) (by decide) rfl (by decide) rfl (by decide) rfl
  exact ⟨hbad, hgood.1, hgood.2.1, hgood.2.2⟩

/-- C9 as stated is false: in the PORTAL3 backend a non-JSON-serializable
cell is not coerced to its string form — `jsonify` raises and the whole
attribute response fails with a 500 error, as evaluated on the fixture
table `tb` whose single row holds a bytes cell. -/
theorem C9_cex :
    (Portal3.get_attributes reg1 dfs1 "tb").1
      = Resp.err 500 "Object is not JSON serializable" := by
  decide

/-- C9 (amended): in NEW/template every attribute-mode cell is coerced —
JSON-safe values pass through unchanged, any other value is replaced by
its string form — so the response always succeeds and every returned
value is JSON-safe.  In PORTAL3/BEST a successful attribute response
also contains only JSON-safe values, but there is no per-cell recovery:
a non-serializable cell fails the whole response (see the
counterexample). -/
theorem C9_value_coercion (db : String → Option DataFrame) (t : String)
    (df : DataFrame) (ht : t ∈ NewT.allowedTables) (hdb : db t = some df)
    (hwf : df.wf) (reg : List (String × Portal3.TableMeta))
    (dfs : String → Option DataFrame) (t3 : String) :
    (∃ aout, (NewT.fetch_attributes db t none).result = .ok aout
      ∧ (∀ obj ∈ aout.rows, ∀ kv ∈ obj, kv.2.jsonSafe = true)
      ∧ (∀ i row, df.rows.get? i = some row →
          ∃ obj, aout.rows.get? i = some obj ∧
            ∀ k v, k ≠ "geom" → findPair k (df.cols.zip row) = some (k, v) →
              findPair k obj = some (k, if v.jsonSafe then v else Value.vStr v.pyStr)))
    ∧ (∀ aout3, (Portal3.get_attributes reg dfs t3).1 = Resp.ok aout3 →
        ∀ obj ∈ aout3.rows, ∀ kv ∈ obj, kv.2.jsonSafe = true) := by
  constructor
  · refine ⟨⟨(df.cols ++ ["_rowid"]).filter (fun c => c ≠ "geom"),
      (numberFrom 1 df.rows).map (fun p => NewT.attrObj df.cols p.1 p.2)⟩, ?_, ?_, ?_⟩
    · simp [NewT.fetch_attributes, ht, hdb]
    · intro obj hobj kv hkv
      rcases List.mem_map.mp hobj with ⟨p, _, hpe⟩
      rw [← hpe] at hkv
      exact attrObj_values_safe df.cols p.1 p.2 kv hkv
    · intro i row hrow
      refine ⟨NewT.attrObj df.cols (1 + i) row, ?_, ?_⟩
      · rw [List.get?_map, numberFrom_get?, hrow]
        rfl
      · intro k v hk hfind
        have hlen := hwf row (List.get?_mem hrow)
        have hp := findPair_attrObj df.cols row (1 + i) hlen hk hfind
        rw [hp]
        simp [NewT.coerceValue]
  · intro aout3 hok obj hobj kv hkv
    unfold Portal3.get_attributes at hok
    cases hT : Portal3.lookupTable reg t3 with
    | none => rw [hT] at hok; simp at hok
    | some m =>
        rw [hT] at hok
        cases hd : dfs t3 with
        | none => rw [hd] at hok; simp at hok
        | some df3 =>
            rw [hd] at hok
            simp only [apply_ite Prod.fst] at hok
            split at hok
            · rename_i hall
              injection hok with h
              rw [← h] at hobj
              exact List.all_eq_true.mp (List.all_eq_true.mp hall obj hobj) kv hkv
            · simp at hok

/-- Witness for the amended C9: the ADM2 fixture whose row holds a bytes
cell (NEW coerces it), and the PORTAL3 fixture table `t1`. -/
theorem C9_value_coercion_witness :
    (∃ aout, (NewT.fetch_attributes dbNB "ken_admbnda_adm2_iebc_20191031" none).result
        = .ok aout
      ∧ (∀ obj ∈ aout.rows, ∀ kv ∈ obj, kv.2.jsonSafe = true)
      ∧ (∀ i row, dfNB.rows.get? i = some row →
          ∃ obj, aout.rows.get? i = some obj ∧
            ∀ k v, k ≠ "geom" → findPair k (dfNB.cols.zip row) = some (k, v) →
              findPair k obj = some (k, if v.jsonSafe then v else Value.vStr v.pyStr)))
    ∧ (∀ aout3, (Portal3.get_attributes reg1 dfs1 "t1").1 = Resp.ok aout3 →
        ∀ obj ∈ aout3.rows, ∀ kv ∈ obj, kv.2.jsonSafe = true) :=
  C9_value_coercion dbNB "ken_admbnda_adm2_iebc_20191031" dfNB
    (by decide) (by decide) (by unfold DataFrame.wf; decide) reg1 dfs1 "t1"
